import Mathlib

/-! OpenLASIR packet codec (arduino/OpenLASIR_Utils.h)

Shallow embedding of the encoding and decoding functions of
`OpenLASIR_Utils.h`.  The C++ fixed-width integers are natural numbers:
a `uint8_t` is a `Nat` below `256`, a `uint16_t` a `Nat` below `65536`.
A conversion of the source to a fixed-width type (a cast or a store into a
`uint8_t` / `uint16_t` object) is written as an explicit `% 256` or
`% 65536`.  Output reference parameters become components of the result.
-/

/-! ## Constants -/

/-- Mode number of a laser tag fire packet (`#define OPENLASIR_MODE_LASER_TAG_FIRE 0`). -/
def OPENLASIR_MODE_LASER_TAG_FIRE : Nat := 0

/-! ## Data model -/

/-- Decoded packet structure (`struct OpenLASIR_Packet`): four `uint8_t` fields. -/
structure OpenLASIR_Packet where
  /-- Block ID (from address). -/
  blockId : Nat
  /-- Device ID (command bits 0-7). -/
  deviceId : Nat
  /-- Mode number (command bits 8-12). -/
  mode : Nat
  /-- Data / color (command bits 13-15). -/
  data : Nat
  deriving DecidableEq, Repr

/-! ## Encoding functions -/

/-- Encoder of a general packet.  The result is the pair `(address, command)`
written through the two output references:
`address = blockId;`
`command = ((uint16_t)(data & 0x07) << 13) | ((uint16_t)(mode & 0x1F) << 8) | deviceId;`
The two casts are the inner `% 65536`, the store into the `uint16_t` command
is the outer one.  The shifts are done after integer promotion; the shifted
values are at most `7 * 2^13` and `31 * 2^8`, so they are not reduced. -/
def OpenLASIR_encodeGeneralPacket (blockId deviceId mode data : Nat) : Nat × Nat :=
  (blockId,
   (((((data &&& 0x07) % 65536) <<< 13) ||| (((mode &&& 0x1F) % 65536) <<< 8)) ||| deviceId)
     % 65536)

/-- Encoder of a laser tag fire packet: the general encoder called with the
mode `OPENLASIR_MODE_LASER_TAG_FIRE` and the color as data. -/
def OpenLASIR_encodeLaserTagFire (blockId deviceId color : Nat) : Nat × Nat :=
  OpenLASIR_encodeGeneralPacket blockId deviceId OPENLASIR_MODE_LASER_TAG_FIRE color

/-! ## Decoding functions -/

/-- Decoder of a general packet:
`pkt.blockId = address; pkt.deviceId = command & 0xFF;`
`pkt.mode = (command >> 8) & 0x1F; pkt.data = (command >> 13) & 0x07;`
Each store into a `uint8_t` field is a `% 256`. -/
def OpenLASIR_decodeGeneralPacket (address command : Nat) : OpenLASIR_Packet :=
  { blockId := address
    deviceId := (command &&& 0xFF) % 256
    mode := ((command >>> 8) &&& 0x1F) % 256
    data := ((command >>> 13) &&& 0x07) % 256 }

/-- Decoder of a laser tag fire packet.  The result is the returned flag paired
with the packet written through the output reference:
`packet = OpenLASIR_decodeGeneralPacket(address, command);`
`return (packet.mode == OPENLASIR_MODE_LASER_TAG_FIRE);` -/
def OpenLASIR_decodeLaserTagFire (address command : Nat) : Bool × OpenLASIR_Packet :=
  let packet := OpenLASIR_decodeGeneralPacket address command
  (packet.mode == OPENLASIR_MODE_LASER_TAG_FIRE, packet)

/-! ## Lookup tables -/

/-- Number of colors (`#define OPENLASIR_NUM_COLORS 8`). -/
def OPENLASIR_NUM_COLORS : Nat := 8

/-- RGB value of a color (`struct OpenLASIR_RGB`): three `uint8_t` components. -/
structure OpenLASIR_RGB where
  /-- Red component. -/
  r : Nat
  /-- Green component. -/
  g : Nat
  /-- Blue component. -/
  b : Nat
  deriving DecidableEq, Repr

/-- RGB values for each color, index = color number (`OPENLASIR_COLOR_RGB[]`).
The table has the same entries with and without `__AVR__`. -/
def OPENLASIR_COLOR_RGB : List OpenLASIR_RGB :=
  [ { r := 0, g := 255, b := 255 },
    { r := 255, g := 0, b := 255 },
    { r := 255, g := 255, b := 0 },
    { r := 0, g := 255, b := 0 },
    { r := 255, g := 0, b := 0 },
    { r := 0, g := 0, b := 255 },
    { r := 255, g := 165, b := 0 },
    { r := 255, g := 255, b := 255 } ]

/-- Color names, index = color number (`OPENLASIR_COLOR_NAMES[]`). -/
def OPENLASIR_COLOR_NAMES : List String :=
  ["Cyan", "Magenta", "Yellow", "Green", "Red", "Blue", "Orange", "White"]

/-- Number of defined modes (`#define OPENLASIR_NUM_DEFINED_MODES 12`). -/
def OPENLASIR_NUM_DEFINED_MODES : Nat := 12

/-- Mode names, index = mode number (`OPENLASIR_MODE_NAMES[]`). -/
def OPENLASIR_MODE_NAMES : List String :=
  [ "laser_tag_fire",
    "user_presence_announcement",
    "base_station_presence_announcement",
    "user_to_user_handshake_initiation",
    "user_to_user_handshake_response",
    "user_to_base_station_handshake_initiation",
    "user_to_base_station_handshake_response",
    "base_station_to_user_handshake_initiation",
    "base_station_to_user_handshake_response",
    "color_set_temporary",
    "color_set_permanent",
    "general_interact" ]

/-! ## Name lookup helpers

An array read of the source is a read of the list at that index.  A read
past the end of the array has no defined result in C++, so a read is
`Option`-valued and the lookup functions return `none` exactly when they would
read past the end of their table. -/

/-- Name of a mode number:
`if (mode < OPENLASIR_NUM_DEFINED_MODES) return OPENLASIR_MODE_NAMES[mode];`
`return "unknown";` -/
def OpenLASIR_getModeName (mode : Nat) : Option String :=
  if mode < OPENLASIR_NUM_DEFINED_MODES then
    OPENLASIR_MODE_NAMES[mode]?
  else
    some "unknown"

/-- Name of a color number:
`if (color < OPENLASIR_NUM_COLORS) return OPENLASIR_COLOR_NAMES[color];`
`return "unknown";` -/
def OpenLASIR_getColorName (color : Nat) : Option String :=
  if color < OPENLASIR_NUM_COLORS then
    OPENLASIR_COLOR_NAMES[color]?
  else
    some "unknown"

/-- RGB values of a color number.  The arguments `r`, `g`, `b` are the contents
of the three output references before the call; the result is the returned
flag with their contents after it:
`if (color >= OPENLASIR_NUM_COLORS) return false;`
`r = OPENLASIR_COLOR_RGB[color].r; g = OPENLASIR_COLOR_RGB[color].g;`
`b = OPENLASIR_COLOR_RGB[color].b; return true;`
With `__AVR__` the same table entry is copied by `memcpy_P` first. -/
def OpenLASIR_getColorRGB (color r g b : Nat) : Option (Bool × Nat × Nat × Nat) :=
  if color ≥ OPENLASIR_NUM_COLORS then
    some (false, r, g, b)
  else
    match OPENLASIR_COLOR_RGB[color]? with
    | none => none
    | some rgb => some (true, rgb.r, rgb.g, rgb.b)

/-! ## Arithmetic form of the bit operations -/

/-- Masking with `0x07` keeps the value modulo `8`. -/
theorem and_0x07_eq_mod (n : Nat) : n &&& 0x07 = n % 8 :=
  Nat.and_pow_two_sub_one_eq_mod n 3

/-- Masking with `0x1F` keeps the value modulo `32`. -/
theorem and_0x1F_eq_mod (n : Nat) : n &&& 0x1F = n % 32 :=
  Nat.and_pow_two_sub_one_eq_mod n 5

/-- Masking with `0xFF` keeps the value modulo `256`. -/
theorem and_0xFF_eq_mod (n : Nat) : n &&& 0xFF = n % 256 :=
  Nat.and_pow_two_sub_one_eq_mod n 8

/-- The three shifted terms of the command occupy disjoint bits, so their
bitwise OR is their sum. -/
theorem command_or_eq_add (deviceId m x : Nat) (hd : deviceId < 256) (hm : m < 32) :
    ((x <<< 13) ||| (m <<< 8)) ||| deviceId = 8192 * x + 256 * m + deviceId := by
  have h1 : 2 ^ 8 * m + deviceId = 2 ^ 8 * m ||| deviceId :=
    Nat.mul_add_lt_is_or (by simpa using hd) m
  have hlt : 2 ^ 8 * m + deviceId < 2 ^ 13 := by
    norm_num
    omega
  have h2 : 2 ^ 13 * x + (2 ^ 8 * m + deviceId) = 2 ^ 13 * x ||| (2 ^ 8 * m + deviceId) :=
    Nat.mul_add_lt_is_or hlt x
  rw [Nat.or_assoc, Nat.shiftLeft_eq, Nat.shiftLeft_eq, Nat.mul_comm x, Nat.mul_comm m,
    ← h1, ← h2]
  norm_num
  omega

/-- The command computed by the general encoder, in arithmetic form. -/
theorem encodeGeneralPacket_command (blockId deviceId mode data : Nat) (hd : deviceId < 256) :
    (OpenLASIR_encodeGeneralPacket blockId deviceId mode data).2
      = deviceId + 256 * (mode % 32) + 8192 * (data % 8) := by
  have hm : mode % 32 < 32 := Nat.mod_lt _ (by decide)
  have hx : data % 8 < 8 := Nat.mod_lt _ (by decide)
  have hm16 : mode % 32 % 65536 = mode % 32 := Nat.mod_eq_of_lt (by omega)
  have hx16 : data % 8 % 65536 = data % 8 := Nat.mod_eq_of_lt (by omega)
  simp only [OpenLASIR_encodeGeneralPacket, and_0x07_eq_mod, and_0x1F_eq_mod, hm16, hx16]
  rw [command_or_eq_add deviceId (mode % 32) (data % 8) hd hm]
  omega

/-- The fields computed by the general decoder, in arithmetic form. -/
theorem decodeGeneralPacket_eq (address command : Nat) :
    OpenLASIR_decodeGeneralPacket address command
      = { blockId := address
          deviceId := command % 256
          mode := (command / 256) % 32
          data := (command / 8192) % 8 } := by
  simp only [OpenLASIR_decodeGeneralPacket, and_0x07_eq_mod, and_0x1F_eq_mod, and_0xFF_eq_mod,
    Nat.shiftRight_eq_div_pow]
  norm_num
  refine ⟨?_, ?_⟩ <;> omega

/-! ## Bit-level reading of a field -/

/-- Bit `i` of the `w`-bit field of `c` that starts at bit `k`. -/
theorem field_testBit (c k w i : Nat) :
    ((c / 2 ^ k) % 2 ^ w).testBit i = (decide (i < w) && c.testBit (k + i)) := by
  rw [Nat.testBit_mod_two_pow, ← Nat.shiftRight_eq_div_pow, Nat.testBit_shiftRight]

/-- The `w`-bit field of `c` that starts at bit `k` has the value `v` exactly
when its bits are those of `v`. -/
theorem field_eq_iff_testBit (c k w v : Nat) (hv : v < 2 ^ w) :
    (c / 2 ^ k) % 2 ^ w = v ↔ ∀ i, i < w → c.testBit (k + i) = v.testBit i := by
  constructor
  · intro h i hi
    rw [← h, field_testBit]
    simp [hi]
  · intro h
    apply Nat.eq_of_testBit_eq
    intro i
    rw [field_testBit]
    by_cases hi : i < w
    · simp [hi, h i hi]
    · have hle : 2 ^ w ≤ 2 ^ i := Nat.pow_le_pow_right (by decide) (Nat.le_of_not_lt hi)
      have hf : v.testBit i = false := Nat.testBit_lt_two_pow (Nat.lt_of_lt_of_le hv hle)
      simp [hi, hf]

/-! ## Decoding an encoded packet -/

/-- Decoding the output of the general encoder gives the masked fields. -/
theorem decode_encodeGeneralPacket (blockId deviceId mode data : Nat) (hd : deviceId < 256) :
    OpenLASIR_decodeGeneralPacket
        (OpenLASIR_encodeGeneralPacket blockId deviceId mode data).1
        (OpenLASIR_encodeGeneralPacket blockId deviceId mode data).2
      = { blockId := blockId, deviceId := deviceId, mode := mode % 32, data := data % 8 } := by
  rw [decodeGeneralPacket_eq, encodeGeneralPacket_command blockId deviceId mode data hd]
  have h1 : (OpenLASIR_encodeGeneralPacket blockId deviceId mode data).1 = blockId := rfl
  rw [h1]
  have hm : mode % 32 < 32 := Nat.mod_lt _ (by decide)
  have hx : data % 8 < 8 := Nat.mod_lt _ (by decide)
  congr 1 <;> omega

/-- The flag returned by the laser tag fire decoder, in arithmetic form. -/
theorem decodeLaserTagFire_fst (address command : Nat) :
    (OpenLASIR_decodeLaserTagFire address command).1 = decide ((command / 256) % 32 = 0) := by
  simp only [OpenLASIR_decodeLaserTagFire, OPENLASIR_MODE_LASER_TAG_FIRE, decodeGeneralPacket_eq]
  by_cases h : (command / 256) % 32 = 0 <;> simp [h]

/-- The packet written by the laser tag fire decoder is the general decode. -/
theorem decodeLaserTagFire_snd (address command : Nat) :
    (OpenLASIR_decodeLaserTagFire address command).2
      = OpenLASIR_decodeGeneralPacket address command := rfl

/-! ## Claims about the codec -/

/-- C1. Round trip: for every blockId and deviceId in 0..255, mode in 0..31 and
data in 0..7, decoding the (address, command) pair produced by the general
encoder returns exactly the packet with these four fields. -/
theorem C1_roundtrip (blockId deviceId mode data : Nat) :
    blockId < 256 → deviceId < 256 → mode < 32 → data < 8 →
    OpenLASIR_decodeGeneralPacket
        (OpenLASIR_encodeGeneralPacket blockId deviceId mode data).1
        (OpenLASIR_encodeGeneralPacket blockId deviceId mode data).2
      = { blockId := blockId, deviceId := deviceId, mode := mode, data := data } := by
  intro _ hd hm hx
  rw [decode_encodeGeneralPacket blockId deviceId mode data hd,
    Nat.mod_eq_of_lt hm, Nat.mod_eq_of_lt hx]

/-- Instance of C1 at blockId 200, deviceId 255, mode 31, data 7. -/
theorem C1_roundtrip_witness :
    OpenLASIR_decodeGeneralPacket
        (OpenLASIR_encodeGeneralPacket 200 255 31 7).1
        (OpenLASIR_encodeGeneralPacket 200 255 31 7).2
      = { blockId := 200, deviceId := 255, mode := 31, data := 7 } :=
  C1_roundtrip 200 255 31 7 (by decide) (by decide) (by decide) (by decide)

/-- C2. Wire layout of encoding: for all 8-bit blockId, deviceId, mode and
data the address equals blockId, and the command is the 16-bit value
`((data & 0x07) << 13) | ((mode & 0x1F) << 8) | deviceId`, whose bits 0-7 are
those of deviceId, whose bits 8-12 are the low 5 bits of mode and whose bits
13-15 are the low 3 bits of data, as field values and bit by bit. -/
theorem C2_wire_layout (blockId deviceId mode data : Nat) :
    blockId < 256 → deviceId < 256 → mode < 256 → data < 256 →
    (OpenLASIR_encodeGeneralPacket blockId deviceId mode data).1 = blockId ∧
    (OpenLASIR_encodeGeneralPacket blockId deviceId mode data).2
      = ((((data &&& 0x07) <<< 13) ||| ((mode &&& 0x1F) <<< 8)) ||| deviceId) ∧
    (OpenLASIR_encodeGeneralPacket blockId deviceId mode data).2 < 65536 ∧
    (OpenLASIR_encodeGeneralPacket blockId deviceId mode data).2 % 256 = deviceId ∧
    ((OpenLASIR_encodeGeneralPacket blockId deviceId mode data).2 / 256) % 32 = mode % 32 ∧
    ((OpenLASIR_encodeGeneralPacket blockId deviceId mode data).2 / 8192) % 8 = data % 8 ∧
    (∀ i, i < 8 →
      (OpenLASIR_encodeGeneralPacket blockId deviceId mode data).2.testBit i
        = deviceId.testBit i) ∧
    (∀ i, i < 5 →
      (OpenLASIR_encodeGeneralPacket blockId deviceId mode data).2.testBit (8 + i)
        = mode.testBit i) ∧
    (∀ i, i < 3 →
      (OpenLASIR_encodeGeneralPacket blockId deviceId mode data).2.testBit (13 + i)
        = data.testBit i) := by
  intro _ hd _ _
  have hm : mode % 32 < 32 := Nat.mod_lt _ (by decide)
  have hx : data % 8 < 8 := Nat.mod_lt _ (by decide)
  have hc := encodeGeneralPacket_command blockId deviceId mode data hd
  have hor := command_or_eq_add deviceId (mode % 32) (data % 8) hd hm
  have hdev : (OpenLASIR_encodeGeneralPacket blockId deviceId mode data).2 % 256 = deviceId := by
    omega
  have hmode :
      ((OpenLASIR_encodeGeneralPacket blockId deviceId mode data).2 / 256) % 32 = mode % 32 := by
    omega
  have hdata :
      ((OpenLASIR_encodeGeneralPacket blockId deviceId mode data).2 / 8192) % 8 = data % 8 := by
    omega
  refine ⟨rfl, ?_, by omega, hdev, hmode, hdata, ?_, ?_, ?_⟩
  · rw [and_0x07_eq_mod, and_0x1F_eq_mod, hor, hc]
    omega
  · intro i hi
    have h := (field_eq_iff_testBit
      (OpenLASIR_encodeGeneralPacket blockId deviceId mode data).2 0 8 deviceId
      (by simpa using hd)).1 (by simpa using hdev) i hi
    simpa using h
  · intro i hi
    have h := (field_eq_iff_testBit
      (OpenLASIR_encodeGeneralPacket blockId deviceId mode data).2 8 5 (mode % 32)
      (by simpa using hm)).1 (by simpa using hmode) i hi
    rw [h]
    have h5 := Nat.testBit_mod_two_pow mode 5 i
    simp only [hi, decide_True, Bool.true_and] at h5
    simpa using h5
  · intro i hi
    have h := (field_eq_iff_testBit
      (OpenLASIR_encodeGeneralPacket blockId deviceId mode data).2 13 3 (data % 8)
      (by simpa using hx)).1 (by simpa using hdata) i hi
    rw [h]
    have h3 := Nat.testBit_mod_two_pow data 3 i
    simp only [hi, decide_True, Bool.true_and] at h3
    simpa using h3

/-- Instance of C2 at blockId 7, deviceId 42, mode 0x3D, data 0x0B. -/
theorem C2_wire_layout_witness :
    (OpenLASIR_encodeGeneralPacket 7 42 0x3D 0x0B).1 = 7 ∧
    (OpenLASIR_encodeGeneralPacket 7 42 0x3D 0x0B).2
      = ((((0x0B &&& 0x07) <<< 13) ||| ((0x3D &&& 0x1F) <<< 8)) ||| 42) ∧
    (OpenLASIR_encodeGeneralPacket 7 42 0x3D 0x0B).2 < 65536 ∧
    (OpenLASIR_encodeGeneralPacket 7 42 0x3D 0x0B).2 % 256 = 42 ∧
    ((OpenLASIR_encodeGeneralPacket 7 42 0x3D 0x0B).2 / 256) % 32 = 0x3D % 32 ∧
    ((OpenLASIR_encodeGeneralPacket 7 42 0x3D 0x0B).2 / 8192) % 8 = 0x0B % 8 ∧
    (∀ i, i < 8 →
      (OpenLASIR_encodeGeneralPacket 7 42 0x3D 0x0B).2.testBit i = (42 : Nat).testBit i) ∧
    (∀ i, i < 5 →
      (OpenLASIR_encodeGeneralPacket 7 42 0x3D 0x0B).2.testBit (8 + i)
        = (0x3D : Nat).testBit i) ∧
    (∀ i, i < 3 →
      (OpenLASIR_encodeGeneralPacket 7 42 0x3D 0x0B).2.testBit (13 + i)
        = (0x0B : Nat).testBit i) :=
  C2_wire_layout 7 42 0x3D 0x0B (by decide) (by decide) (by decide) (by decide)

/-- C3. Decoding definition: for every 8-bit address and every 16-bit command
the general decoder returns the packet with blockId = address,
deviceId = command mod 256, mode = (command / 256) mod 32 and
data = (command / 8192) mod 8. -/
theorem C3_decode_definition (address command : Nat) :
    address < 256 → command < 65536 →
    OpenLASIR_decodeGeneralPacket address command
      = { blockId := address
          deviceId := command % 256
          mode := (command / 256) % 32
          data := (command / 8192) % 8 } := by
  intro _ _
  exact decodeGeneralPacket_eq address command

/-- Instance of C3 at address 7 and command 0xFFFF. -/
theorem C3_decode_definition_witness :
    OpenLASIR_decodeGeneralPacket 7 0xFFFF
      = { blockId := 7
          deviceId := 0xFFFF % 256
          mode := (0xFFFF / 256) % 32
          data := (0xFFFF / 8192) % 8 } :=
  C3_decode_definition 7 0xFFFF (by decide) (by decide)

/-- C4. Masking: for all 8-bit blockId, deviceId, mode and data, also with
mode above 31 or data above 7, decoding the output of the general encoder
yields blockId and deviceId unchanged, mode & 0x1F and data & 0x07. -/
theorem C4_masking (blockId deviceId mode data : Nat) :
    blockId < 256 → deviceId < 256 → mode < 256 → data < 256 →
    OpenLASIR_decodeGeneralPacket
        (OpenLASIR_encodeGeneralPacket blockId deviceId mode data).1
        (OpenLASIR_encodeGeneralPacket blockId deviceId mode data).2
      = { blockId := blockId, deviceId := deviceId,
          mode := mode &&& 0x1F, data := data &&& 0x07 } := by
  intro _ hd _ _
  rw [decode_encodeGeneralPacket blockId deviceId mode data hd, and_0x1F_eq_mod,
    and_0x07_eq_mod]

/-- Instance of C4 at mode 0x3D and data 0x0B, which decode to mode 0x1D and
data 0x03. -/
theorem C4_masking_witness :
    OpenLASIR_decodeGeneralPacket
        (OpenLASIR_encodeGeneralPacket 7 42 0x3D 0x0B).1
        (OpenLASIR_encodeGeneralPacket 7 42 0x3D 0x0B).2
      = { blockId := 7, deviceId := 42, mode := 0x1D, data := 0x03 } :=
  C4_masking 7 42 0x3D 0x0B (by decide) (by decide) (by decide) (by decide)

/-- C5. Laser tag round trip: for every 8-bit blockId and deviceId and every
color in 0..7, the pair produced by the laser tag fire encoder is decoded by
the general decoder to the packet with mode 0 and data = color, and the laser
tag fire decoder returns true on that pair with the same packet. -/
theorem C5_laser_tag_roundtrip (blockId deviceId color : Nat) :
    blockId < 256 → deviceId < 256 → color < 8 →
    OpenLASIR_decodeGeneralPacket
        (OpenLASIR_encodeLaserTagFire blockId deviceId color).1
        (OpenLASIR_encodeLaserTagFire blockId deviceId color).2
      = { blockId := blockId, deviceId := deviceId, mode := 0, data := color } ∧
    OpenLASIR_decodeLaserTagFire
        (OpenLASIR_encodeLaserTagFire blockId deviceId color).1
        (OpenLASIR_encodeLaserTagFire blockId deviceId color).2
      = (true, { blockId := blockId, deviceId := deviceId, mode := 0, data := color }) := by
  intro _ hd hc
  have h : OpenLASIR_decodeGeneralPacket
        (OpenLASIR_encodeLaserTagFire blockId deviceId color).1
        (OpenLASIR_encodeLaserTagFire blockId deviceId color).2
      = { blockId := blockId, deviceId := deviceId, mode := 0, data := color } := by
    rw [OpenLASIR_encodeLaserTagFire, decode_encodeGeneralPacket blockId deviceId _ color hd,
      Nat.mod_eq_of_lt hc]
    rfl
  refine ⟨h, ?_⟩
  simp only [OpenLASIR_decodeLaserTagFire, h]
  rfl

/-- Instance of C5: the fire packet of blockId 7, deviceId 42, color 4 (red)
decodes to the packet 7, 42, 0, 4 and is matched. -/
theorem C5_laser_tag_roundtrip_witness :
    OpenLASIR_decodeGeneralPacket
        (OpenLASIR_encodeLaserTagFire 7 42 4).1 (OpenLASIR_encodeLaserTagFire 7 42 4).2
      = { blockId := 7, deviceId := 42, mode := 0, data := 4 } ∧
    OpenLASIR_decodeLaserTagFire
        (OpenLASIR_encodeLaserTagFire 7 42 4).1 (OpenLASIR_encodeLaserTagFire 7 42 4).2
      = (true, { blockId := 7, deviceId := 42, mode := 0, data := 4 }) :=
  C5_laser_tag_roundtrip 7 42 4 (by decide) (by decide) (by decide)

/-- C6, as stated, fails: mode 32 is an 8-bit value other than 0, the encoder
masks it to 0, and the laser tag fire decoder returns true on the encoded
pair.  Hence the statement over all nonzero 8-bit modes is false. -/
theorem C6_nonzero_mode_counterexample :
    ((32 : Nat) < 256 ∧ (32 : Nat) ≠ 0 ∧
      OpenLASIR_decodeLaserTagFire
          (OpenLASIR_encodeGeneralPacket 1 2 32 5).1
          (OpenLASIR_encodeGeneralPacket 1 2 32 5).2
        = (true, { blockId := 1, deviceId := 2, mode := 0, data := 5 })) ∧
    ¬ (∀ blockId deviceId mode data : Nat,
        blockId < 256 → deviceId < 256 → mode < 256 → data < 256 → mode ≠ 0 →
        (OpenLASIR_decodeLaserTagFire
            (OpenLASIR_encodeGeneralPacket blockId deviceId mode data).1
            (OpenLASIR_encodeGeneralPacket blockId deviceId mode data).2).1 = false) := by
  refine ⟨⟨by decide, by decide, by decide⟩, ?_⟩
  intro h
  have h32 := h 1 2 32 5 (by decide) (by decide) (by decide) (by decide) (by decide)
  revert h32
  decide

/-- C6, amended. Non-match: for all 8-bit blockId, deviceId, mode and data
such that the low 5 bits of mode are not all zero (mode mod 32 is not 0, which
covers every mode in 1..31), the laser tag fire decoder returns false on the
pair produced by the general encoder. -/
theorem C6_non_match (blockId deviceId mode data : Nat) :
    blockId < 256 → deviceId < 256 → mode < 256 → data < 256 → mode % 32 ≠ 0 →
    (OpenLASIR_decodeLaserTagFire
        (OpenLASIR_encodeGeneralPacket blockId deviceId mode data).1
        (OpenLASIR_encodeGeneralPacket blockId deviceId mode data).2).1 = false := by
  intro _ hd _ _ hm
  have h := decode_encodeGeneralPacket blockId deviceId mode data hd
  simp only [OpenLASIR_decodeLaserTagFire, h, OPENLASIR_MODE_LASER_TAG_FIRE]
  simpa using hm

/-- Instance of the amended C6 at mode 11 (general_interact). -/
theorem C6_non_match_witness :
    (OpenLASIR_decodeLaserTagFire
        (OpenLASIR_encodeGeneralPacket 7 42 11 4).1
        (OpenLASIR_encodeGeneralPacket 7 42 11 4).2).1 = false :=
  C6_non_match 7 42 11 4 (by decide) (by decide) (by decide) (by decide) (by decide)

/-- C7. For every 8-bit address and 16-bit command, the packet written by the
laser tag fire decoder is the general decode of the pair, whatever flag it
returns, and the flag is true if and only if the mode field of that packet is
0, which holds if and only if bits 8-12 of the command are all zero. -/
theorem C7_decodeLaserTagFire (address command : Nat) :
    address < 256 → command < 65536 →
    (OpenLASIR_decodeLaserTagFire address command).2
      = OpenLASIR_decodeGeneralPacket address command ∧
    ((OpenLASIR_decodeLaserTagFire address command).1 = true ↔
      (OpenLASIR_decodeGeneralPacket address command).mode = 0) ∧
    ((OpenLASIR_decodeLaserTagFire address command).1 = false ↔
      (OpenLASIR_decodeGeneralPacket address command).mode ≠ 0) ∧
    ((OpenLASIR_decodeGeneralPacket address command).mode = 0 ↔
      ∀ i, 8 ≤ i → i ≤ 12 → command.testBit i = false) := by
  intro _ _
  have hfst := decodeLaserTagFire_fst address command
  have hmode : (OpenLASIR_decodeGeneralPacket address command).mode = (command / 256) % 32 := by
    rw [decodeGeneralPacket_eq]
  refine ⟨rfl, ?_, ?_, ?_⟩
  · rw [hfst, hmode]
    simp
  · rw [hfst, hmode]
    simp
  · rw [hmode]
    have h := field_eq_iff_testBit command 8 5 0 (by decide)
    simp only [Nat.zero_testBit] at h
    have h256 : (2 : Nat) ^ 8 = 256 := by norm_num
    have h32 : (2 : Nat) ^ 5 = 32 := by norm_num
    rw [h256, h32] at h
    rw [h]
    constructor
    · intro hb i h8 h12
      have hi := hb (i - 8) (by omega)
      have he : 8 + (i - 8) = i := by omega
      rwa [he] at hi
    · intro hb i hi
      exact hb (8 + i) (by omega) (by omega)

/-- Instance of C7 at address 7 and command 32810, a laser tag fire packet. -/
theorem C7_decodeLaserTagFire_witness :
    (OpenLASIR_decodeLaserTagFire 7 32810).2 = OpenLASIR_decodeGeneralPacket 7 32810 ∧
    ((OpenLASIR_decodeLaserTagFire 7 32810).1 = true ↔
      (OpenLASIR_decodeGeneralPacket 7 32810).mode = 0) ∧
    ((OpenLASIR_decodeLaserTagFire 7 32810).1 = false ↔
      (OpenLASIR_decodeGeneralPacket 7 32810).mode ≠ 0) ∧
    ((OpenLASIR_decodeGeneralPacket 7 32810).mode = 0 ↔
      ∀ i, 8 ≤ i → i ≤ 12 → (32810 : Nat).testBit i = false) :=
  C7_decodeLaserTagFire 7 32810 (by decide) (by decide)

/-- C8. For all 8-bit blockId, deviceId and color, the laser tag fire encoder
produces the same (address, command) pair as the general encoder called with
mode 0 and data = color; bits 8-12 of its command are zero, and bits 13-15
hold the low 3 bits of the color, so that a color above 7 is truncated. -/
theorem C8_encodeLaserTagFire (blockId deviceId color : Nat) :
    blockId < 256 → deviceId < 256 → color < 256 →
    OpenLASIR_encodeLaserTagFire blockId deviceId color
      = OpenLASIR_encodeGeneralPacket blockId deviceId 0 color ∧
    OpenLASIR_encodeLaserTagFire blockId deviceId color
      = (blockId, deviceId + 8192 * (color % 8)) ∧
    ((OpenLASIR_encodeLaserTagFire blockId deviceId color).2 / 256) % 32 = 0 ∧
    (∀ i, 8 ≤ i → i ≤ 12 →
      (OpenLASIR_encodeLaserTagFire blockId deviceId color).2.testBit i = false) ∧
    ((OpenLASIR_encodeLaserTagFire blockId deviceId color).2 / 8192) % 8 = color % 8 := by
  intro _ hd _
  have hx : color % 8 < 8 := Nat.mod_lt _ (by decide)
  have hc : (OpenLASIR_encodeLaserTagFire blockId deviceId color).2
      = deviceId + 8192 * (color % 8) := by
    rw [OpenLASIR_encodeLaserTagFire, encodeGeneralPacket_command blockId deviceId _ color hd,
      OPENLASIR_MODE_LASER_TAG_FIRE]
    omega
  have hmode : ((OpenLASIR_encodeLaserTagFire blockId deviceId color).2 / 256) % 32 = 0 := by
    omega
  refine ⟨rfl, ?_, hmode, ?_, by omega⟩
  · exact Prod.ext rfl hc
  · intro i h8 h12
    have h := (field_eq_iff_testBit
      (OpenLASIR_encodeLaserTagFire blockId deviceId color).2 8 5 0 (by decide)).1
      (by simpa using hmode) (i - 8) (by omega)
    have he : 8 + (i - 8) = i := by omega
    rw [he] at h
    simpa using h

/-- Instance of C8 at color 0x0C, which is above 7 and is sent as color 4. -/
theorem C8_encodeLaserTagFire_witness :
    OpenLASIR_encodeLaserTagFire 7 42 0x0C = OpenLASIR_encodeGeneralPacket 7 42 0 0x0C ∧
    OpenLASIR_encodeLaserTagFire 7 42 0x0C = (7, 42 + 8192 * (0x0C % 8)) ∧
    ((OpenLASIR_encodeLaserTagFire 7 42 0x0C).2 / 256) % 32 = 0 ∧
    (∀ i, 8 ≤ i → i ≤ 12 → (OpenLASIR_encodeLaserTagFire 7 42 0x0C).2.testBit i = false) ∧
    ((OpenLASIR_encodeLaserTagFire 7 42 0x0C).2 / 8192) % 8 = 0x0C % 8 :=
  C8_encodeLaserTagFire 7 42 0x0C (by decide) (by decide) (by decide)

/-- C9. Decode range invariant: for every 8-bit address and every 16-bit
command the general decoder returns a packet, and that packet satisfies
mode <= 31 and data <= 7. -/
theorem C9_decode_range (address command : Nat) :
    address < 256 → command < 65536 →
    (OpenLASIR_decodeGeneralPacket address command).mode ≤ 31 ∧
    (OpenLASIR_decodeGeneralPacket address command).data ≤ 7 := by
  intro _ _
  rw [decodeGeneralPacket_eq]
  have hm : (command / 256) % 32 < 32 := Nat.mod_lt _ (by decide)
  have hx : (command / 8192) % 8 < 8 := Nat.mod_lt _ (by decide)
  exact ⟨Nat.le_of_lt_succ hm, Nat.le_of_lt_succ hx⟩

/-- Instance of C9 at address 255 and command 0xFFFF, all bits set. -/
theorem C9_decode_range_witness :
    (OpenLASIR_decodeGeneralPacket 255 0xFFFF).mode ≤ 31 ∧
    (OpenLASIR_decodeGeneralPacket 255 0xFFFF).data ≤ 7 :=
  C9_decode_range 255 0xFFFF (by decide) (by decide)

/-- C10. Field isolation: for 8-bit arguments, two encoded packets that differ
only in their device ids decode to the same mode and the same data, and two
encoded packets that differ only in their (mode, data) pairs decode to the same
deviceId and the same blockId.  More generally, for any two argument tuples,
each decoded field is the same as soon as the argument of that field is the
same, whatever the other three arguments are. -/
theorem C10_field_isolation (b1 b2 d1 d2 m1 m2 x1 x2 : Nat) :
    b1 < 256 → b2 < 256 → d1 < 256 → d2 < 256 →
    m1 < 256 → m2 < 256 → x1 < 256 → x2 < 256 →
    ((OpenLASIR_decodeGeneralPacket
          (OpenLASIR_encodeGeneralPacket b1 d1 m1 x1).1
          (OpenLASIR_encodeGeneralPacket b1 d1 m1 x1).2).mode
        = (OpenLASIR_decodeGeneralPacket
          (OpenLASIR_encodeGeneralPacket b1 d2 m1 x1).1
          (OpenLASIR_encodeGeneralPacket b1 d2 m1 x1).2).mode ∧
      (OpenLASIR_decodeGeneralPacket
          (OpenLASIR_encodeGeneralPacket b1 d1 m1 x1).1
          (OpenLASIR_encodeGeneralPacket b1 d1 m1 x1).2).data
        = (OpenLASIR_decodeGeneralPacket
          (OpenLASIR_encodeGeneralPacket b1 d2 m1 x1).1
          (OpenLASIR_encodeGeneralPacket b1 d2 m1 x1).2).data) ∧
    ((OpenLASIR_decodeGeneralPacket
          (OpenLASIR_encodeGeneralPacket b1 d1 m1 x1).1
          (OpenLASIR_encodeGeneralPacket b1 d1 m1 x1).2).deviceId
        = (OpenLASIR_decodeGeneralPacket
          (OpenLASIR_encodeGeneralPacket b1 d1 m2 x2).1
          (OpenLASIR_encodeGeneralPacket b1 d1 m2 x2).2).deviceId ∧
      (OpenLASIR_decodeGeneralPacket
          (OpenLASIR_encodeGeneralPacket b1 d1 m1 x1).1
          (OpenLASIR_encodeGeneralPacket b1 d1 m1 x1).2).blockId
        = (OpenLASIR_decodeGeneralPacket
          (OpenLASIR_encodeGeneralPacket b1 d1 m2 x2).1
          (OpenLASIR_encodeGeneralPacket b1 d1 m2 x2).2).blockId) ∧
    ((b1 = b2 →
        (OpenLASIR_decodeGeneralPacket
            (OpenLASIR_encodeGeneralPacket b1 d1 m1 x1).1
            (OpenLASIR_encodeGeneralPacket b1 d1 m1 x1).2).blockId
          = (OpenLASIR_decodeGeneralPacket
            (OpenLASIR_encodeGeneralPacket b2 d2 m2 x2).1
            (OpenLASIR_encodeGeneralPacket b2 d2 m2 x2).2).blockId) ∧
      (d1 = d2 →
        (OpenLASIR_decodeGeneralPacket
            (OpenLASIR_encodeGeneralPacket b1 d1 m1 x1).1
            (OpenLASIR_encodeGeneralPacket b1 d1 m1 x1).2).deviceId
          = (OpenLASIR_decodeGeneralPacket
            (OpenLASIR_encodeGeneralPacket b2 d2 m2 x2).1
            (OpenLASIR_encodeGeneralPacket b2 d2 m2 x2).2).deviceId) ∧
      (m1 = m2 →
        (OpenLASIR_decodeGeneralPacket
            (OpenLASIR_encodeGeneralPacket b1 d1 m1 x1).1
            (OpenLASIR_encodeGeneralPacket b1 d1 m1 x1).2).mode
          = (OpenLASIR_decodeGeneralPacket
            (OpenLASIR_encodeGeneralPacket b2 d2 m2 x2).1
            (OpenLASIR_encodeGeneralPacket b2 d2 m2 x2).2).mode) ∧
      (x1 = x2 →
        (OpenLASIR_decodeGeneralPacket
            (OpenLASIR_encodeGeneralPacket b1 d1 m1 x1).1
            (OpenLASIR_encodeGeneralPacket b1 d1 m1 x1).2).data
          = (OpenLASIR_decodeGeneralPacket
            (OpenLASIR_encodeGeneralPacket b2 d2 m2 x2).1
            (OpenLASIR_encodeGeneralPacket b2 d2 m2 x2).2).data)) := by
  intro _ _ hd1 hd2 _ _ _ _
  rw [decode_encodeGeneralPacket b1 d1 m1 x1 hd1, decode_encodeGeneralPacket b1 d2 m1 x1 hd2,
    decode_encodeGeneralPacket b1 d1 m2 x2 hd1, decode_encodeGeneralPacket b2 d2 m2 x2 hd2]
  refine ⟨⟨rfl, rfl⟩, ⟨rfl, rfl⟩, ?_, ?_, ?_, ?_⟩
  · intro h
    exact h
  · intro h
    exact h
  · intro h
    exact congrArg (· % 32) h
  · intro h
    exact congrArg (· % 8) h

/-- Instance of C10: device ids 0 and 255 under mode 9 and data 6, and the
(mode, data) pairs (9, 6) and (31, 1) under device id 0. -/
theorem C10_field_isolation_witness :
    ((OpenLASIR_decodeGeneralPacket
          (OpenLASIR_encodeGeneralPacket 7 0 9 6).1
          (OpenLASIR_encodeGeneralPacket 7 0 9 6).2).mode
        = (OpenLASIR_decodeGeneralPacket
          (OpenLASIR_encodeGeneralPacket 7 255 9 6).1
          (OpenLASIR_encodeGeneralPacket 7 255 9 6).2).mode ∧
      (OpenLASIR_decodeGeneralPacket
          (OpenLASIR_encodeGeneralPacket 7 0 9 6).1
          (OpenLASIR_encodeGeneralPacket 7 0 9 6).2).data
        = (OpenLASIR_decodeGeneralPacket
          (OpenLASIR_encodeGeneralPacket 7 255 9 6).1
          (OpenLASIR_encodeGeneralPacket 7 255 9 6).2).data) ∧
    ((OpenLASIR_decodeGeneralPacket
          (OpenLASIR_encodeGeneralPacket 7 0 9 6).1
          (OpenLASIR_encodeGeneralPacket 7 0 9 6).2).deviceId
        = (OpenLASIR_decodeGeneralPacket
          (OpenLASIR_encodeGeneralPacket 7 0 31 1).1
          (OpenLASIR_encodeGeneralPacket 7 0 31 1).2).deviceId ∧
      (OpenLASIR_decodeGeneralPacket
          (OpenLASIR_encodeGeneralPacket 7 0 9 6).1
          (OpenLASIR_encodeGeneralPacket 7 0 9 6).2).blockId
        = (OpenLASIR_decodeGeneralPacket
          (OpenLASIR_encodeGeneralPacket 7 0 31 1).1
          (OpenLASIR_encodeGeneralPacket 7 0 31 1).2).blockId) :=
  let h := C10_field_isolation 7 8 0 255 9 31 6 1 (by decide) (by decide) (by decide)
    (by decide) (by decide) (by decide) (by decide) (by decide)
  ⟨h.1, h.2.1⟩

/-! ## Lookups outside the tables -/

/-- A mode number of 12 or more has the name "unknown". -/
theorem getModeName_of_ge (mode : Nat) (h : 12 ≤ mode) :
    OpenLASIR_getModeName mode = some "unknown" := by
  have hn : ¬ mode < OPENLASIR_NUM_DEFINED_MODES := by
    simp only [OPENLASIR_NUM_DEFINED_MODES]
    omega
  simp only [OpenLASIR_getModeName, hn, if_false]

/-- A color number of 8 or more has the name "unknown". -/
theorem getColorName_of_ge (color : Nat) (h : 8 ≤ color) :
    OpenLASIR_getColorName color = some "unknown" := by
  have hn : ¬ color < OPENLASIR_NUM_COLORS := by
    simp only [OPENLASIR_NUM_COLORS]
    omega
  simp only [OpenLASIR_getColorName, hn, if_false]

/-- A color number of 8 or more is not found and the outputs are not written. -/
theorem getColorRGB_of_ge (color r g b : Nat) (h : 8 ≤ color) :
    OpenLASIR_getColorRGB color r g b = some (false, r, g, b) := by
  have hn : color ≥ OPENLASIR_NUM_COLORS := h
  simp only [OpenLASIR_getColorRGB, hn, if_true]

/-! ## Claims about the lookup helpers -/

/-- C11. For every 8-bit color, the RGB lookup returns a flag, the flag is true
if and only if color < 8, and when it is true the outputs are the table entry
of that color code: 0 (0,255,255), 1 (255,0,255), 2 (255,255,0), 3 (0,255,0),
4 (255,0,0), 5 (0,0,255), 6 (255,165,0), 7 (255,255,255).  For a color of 8 or
more the flag is false and the outputs keep their contents. -/
theorem C11_getColorRGB (color r g b : Nat) :
    color < 256 → r < 256 → g < 256 → b < 256 →
    (∃ res, OpenLASIR_getColorRGB color r g b = some res ∧ (res.1 = true ↔ color < 8)) ∧
    (color = 0 → OpenLASIR_getColorRGB color r g b = some (true, 0, 255, 255)) ∧
    (color = 1 → OpenLASIR_getColorRGB color r g b = some (true, 255, 0, 255)) ∧
    (color = 2 → OpenLASIR_getColorRGB color r g b = some (true, 255, 255, 0)) ∧
    (color = 3 → OpenLASIR_getColorRGB color r g b = some (true, 0, 255, 0)) ∧
    (color = 4 → OpenLASIR_getColorRGB color r g b = some (true, 255, 0, 0)) ∧
    (color = 5 → OpenLASIR_getColorRGB color r g b = some (true, 0, 0, 255)) ∧
    (color = 6 → OpenLASIR_getColorRGB color r g b = some (true, 255, 165, 0)) ∧
    (color = 7 → OpenLASIR_getColorRGB color r g b = some (true, 255, 255, 255)) ∧
    (8 ≤ color → OpenLASIR_getColorRGB color r g b = some (false, r, g, b)) := by
  intro _ _ _ _
  by_cases h : color < 8
  · interval_cases color <;>
      simp [OpenLASIR_getColorRGB, OPENLASIR_NUM_COLORS, OPENLASIR_COLOR_RGB]
  · have h8 : 8 ≤ color := Nat.le_of_not_lt h
    rw [getColorRGB_of_ge color r g b h8]
    refine ⟨⟨_, rfl, ?_⟩, ?_, ?_, ?_, ?_, ?_, ?_, ?_, ?_, ?_⟩
    · simp [h]
    all_goals intro h0
    all_goals first
      | rfl
      | omega

/-- Instances of C11: color 4 (red) is found with (255, 0, 0), color 8 is not
found. -/
theorem C11_getColorRGB_witness :
    OpenLASIR_getColorRGB 4 9 9 9 = some (true, 255, 0, 0) ∧
    OpenLASIR_getColorRGB 8 9 9 9 = some (false, 9, 9, 9) :=
  ⟨(C11_getColorRGB 4 9 9 9 (by decide) (by decide) (by decide) (by decide)).2.2.2.2.2.1 rfl,
   (C11_getColorRGB 8 9 9 9 (by decide) (by decide) (by decide) (by decide)).2.2.2.2.2.2.2.2.2
     (by decide)⟩

/-- C12. For every 8-bit mode, the mode name lookup returns the mode table entry
when mode < 12 and the string "unknown" when mode >= 12, and its result is
"unknown" if and only if mode >= 12. -/
theorem C12_getModeName (mode : Nat) :
    mode < 256 →
    (mode = 0 → OpenLASIR_getModeName mode = some "laser_tag_fire") ∧
    (mode = 1 → OpenLASIR_getModeName mode = some "user_presence_announcement") ∧
    (mode = 2 → OpenLASIR_getModeName mode = some "base_station_presence_announcement") ∧
    (mode = 3 → OpenLASIR_getModeName mode = some "user_to_user_handshake_initiation") ∧
    (mode = 4 → OpenLASIR_getModeName mode = some "user_to_user_handshake_response") ∧
    (mode = 5 →
      OpenLASIR_getModeName mode = some "user_to_base_station_handshake_initiation") ∧
    (mode = 6 →
      OpenLASIR_getModeName mode = some "user_to_base_station_handshake_response") ∧
    (mode = 7 →
      OpenLASIR_getModeName mode = some "base_station_to_user_handshake_initiation") ∧
    (mode = 8 →
      OpenLASIR_getModeName mode = some "base_station_to_user_handshake_response") ∧
    (mode = 9 → OpenLASIR_getModeName mode = some "color_set_temporary") ∧
    (mode = 10 → OpenLASIR_getModeName mode = some "color_set_permanent") ∧
    (mode = 11 → OpenLASIR_getModeName mode = some "general_interact") ∧
    (mode < 12 → OpenLASIR_getModeName mode = OPENLASIR_MODE_NAMES[mode]?) ∧
    (12 ≤ mode → OpenLASIR_getModeName mode = some "unknown") ∧
    (OpenLASIR_getModeName mode = some "unknown" ↔ 12 ≤ mode) := by
  intro _
  by_cases h : mode < 12
  · interval_cases mode <;>
      simp [OpenLASIR_getModeName, OPENLASIR_NUM_DEFINED_MODES, OPENLASIR_MODE_NAMES]
  · have h12 : 12 ≤ mode := Nat.le_of_not_lt h
    rw [getModeName_of_ge mode h12]
    refine ⟨?_, ?_, ?_, ?_, ?_, ?_, ?_, ?_, ?_, ?_, ?_, ?_, ?_, ?_, ?_⟩
    all_goals first
      | (intro h0; omega)
      | (intro _; rfl)
      | simp [h12]

/-- Instances of C12: mode 11 is "general_interact", mode 12 is "unknown". -/
theorem C12_getModeName_witness :
    OpenLASIR_getModeName 11 = some "general_interact" ∧
    OpenLASIR_getModeName 12 = some "unknown" :=
  ⟨(C12_getModeName 11 (by decide)).2.2.2.2.2.2.2.2.2.2.2.1 rfl,
   (C12_getModeName 12 (by decide)).2.2.2.2.2.2.2.2.2.2.2.2.2.1 (by decide)⟩

/-- C13. For every 8-bit color, the color name lookup returns the color name
table entry when color < 8 (Cyan, Magenta, Yellow, Green, Red, Blue, Orange,
White) and the string "unknown" when color >= 8, and its result is "unknown"
if and only if color >= 8. -/
theorem C13_getColorName (color : Nat) :
    color < 256 →
    (color = 0 → OpenLASIR_getColorName color = some "Cyan") ∧
    (color = 1 → OpenLASIR_getColorName color = some "Magenta") ∧
    (color = 2 → OpenLASIR_getColorName color = some "Yellow") ∧
    (color = 3 → OpenLASIR_getColorName color = some "Green") ∧
    (color = 4 → OpenLASIR_getColorName color = some "Red") ∧
    (color = 5 → OpenLASIR_getColorName color = some "Blue") ∧
    (color = 6 → OpenLASIR_getColorName color = some "Orange") ∧
    (color = 7 → OpenLASIR_getColorName color = some "White") ∧
    (color < 8 → OpenLASIR_getColorName color = OPENLASIR_COLOR_NAMES[color]?) ∧
    (8 ≤ color → OpenLASIR_getColorName color = some "unknown") ∧
    (OpenLASIR_getColorName color = some "unknown" ↔ 8 ≤ color) := by
  intro _
  by_cases h : color < 8
  · interval_cases color <;>
      simp [OpenLASIR_getColorName, OPENLASIR_NUM_COLORS, OPENLASIR_COLOR_NAMES]
  · have h8 : 8 ≤ color := Nat.le_of_not_lt h
    rw [getColorName_of_ge color h8]
    refine ⟨?_, ?_, ?_, ?_, ?_, ?_, ?_, ?_, ?_, ?_, ?_⟩
    all_goals first
      | (intro h0; omega)
      | (intro _; rfl)
      | simp [h8]

/-- Instances of C13: color 7 is "White", color 8 is "unknown". -/
theorem C13_getColorName_witness :
    OpenLASIR_getColorName 7 = some "White" ∧
    OpenLASIR_getColorName 8 = some "unknown" :=
  ⟨(C13_getColorName 7 (by decide)).2.2.2.2.2.2.2.1 rfl,
   (C13_getColorName 8 (by decide)).2.2.2.2.2.2.2.2.2.1 (by decide)⟩

/-! ## Claims about the wire representation -/

/-- C14. Reverse round trip: for every 8-bit address and every 16-bit command,
encoding the fields of the decoded packet gives back exactly the pair
(address, command); hence every wire value is the encoding of some packet with
8-bit blockId and deviceId, mode <= 31 and data <= 7. -/
theorem C14_reverse_roundtrip (address command : Nat) :
    address < 256 → command < 65536 →
    OpenLASIR_encodeGeneralPacket
        (OpenLASIR_decodeGeneralPacket address command).blockId
        (OpenLASIR_decodeGeneralPacket address command).deviceId
        (OpenLASIR_decodeGeneralPacket address command).mode
        (OpenLASIR_decodeGeneralPacket address command).data
      = (address, command) ∧
    (∃ blockId deviceId mode data : Nat,
      blockId < 256 ∧ deviceId < 256 ∧ mode ≤ 31 ∧ data ≤ 7 ∧
      OpenLASIR_encodeGeneralPacket blockId deviceId mode data = (address, command)) := by
  intro ha hc
  have hd : command % 256 < 256 := Nat.mod_lt _ (by decide)
  have hm : (command / 256) % 32 < 32 := Nat.mod_lt _ (by decide)
  have hx : (command / 8192) % 8 < 8 := Nat.mod_lt _ (by decide)
  have henc : OpenLASIR_encodeGeneralPacket address (command % 256)
      ((command / 256) % 32) ((command / 8192) % 8) = (address, command) := by
    apply Prod.ext
    · rfl
    · rw [encodeGeneralPacket_command address (command % 256) _ _ hd]
      show command % 256 + 256 * ((command / 256) % 32 % 32)
        + 8192 * ((command / 8192) % 8 % 8) = command
      omega
  refine ⟨?_, ⟨address, command % 256, (command / 256) % 32, (command / 8192) % 8,
    ha, hd, Nat.le_of_lt_succ hm, Nat.le_of_lt_succ hx, henc⟩⟩
  rw [decodeGeneralPacket_eq]
  exact henc

/-- Instance of C14 at address 7 and command 0xFFFF. -/
theorem C14_reverse_roundtrip_witness :
    OpenLASIR_encodeGeneralPacket
        (OpenLASIR_decodeGeneralPacket 7 0xFFFF).blockId
        (OpenLASIR_decodeGeneralPacket 7 0xFFFF).deviceId
        (OpenLASIR_decodeGeneralPacket 7 0xFFFF).mode
        (OpenLASIR_decodeGeneralPacket 7 0xFFFF).data
      = (7, 0xFFFF) :=
  (C14_reverse_roundtrip 7 0xFFFF (by decide) (by decide)).1

/-- C15. Exact match condition after encoding: for all 8-bit blockId, deviceId,
mode and data, the laser tag fire decoder returns true on the output of the
general encoder if and only if mode mod 32 = 0, that is for mode one of 0, 32,
64, 96, 128, 160, 192, 224; for every mode in 1..31 it returns false. -/
theorem C15_match_condition (blockId deviceId mode data : Nat) :
    blockId < 256 → deviceId < 256 → mode < 256 → data < 256 →
    ((OpenLASIR_decodeLaserTagFire
          (OpenLASIR_encodeGeneralPacket blockId deviceId mode data).1
          (OpenLASIR_encodeGeneralPacket blockId deviceId mode data).2).1 = true
        ↔ mode % 32 = 0) ∧
    ((OpenLASIR_decodeLaserTagFire
          (OpenLASIR_encodeGeneralPacket blockId deviceId mode data).1
          (OpenLASIR_encodeGeneralPacket blockId deviceId mode data).2).1 = true
        ↔ mode ∈ [0, 32, 64, 96, 128, 160, 192, 224]) ∧
    (1 ≤ mode → mode ≤ 31 →
      (OpenLASIR_decodeLaserTagFire
          (OpenLASIR_encodeGeneralPacket blockId deviceId mode data).1
          (OpenLASIR_encodeGeneralPacket blockId deviceId mode data).2).1 = false) := by
  intro _ hd hm _
  have h := decode_encodeGeneralPacket blockId deviceId mode data hd
  have hflag : (OpenLASIR_decodeLaserTagFire
        (OpenLASIR_encodeGeneralPacket blockId deviceId mode data).1
        (OpenLASIR_encodeGeneralPacket blockId deviceId mode data).2).1
      = decide (mode % 32 = 0) := by
    simp only [OpenLASIR_decodeLaserTagFire, h, OPENLASIR_MODE_LASER_TAG_FIRE]
    by_cases h0 : mode % 32 = 0 <;> simp [h0]
  rw [hflag]
  refine ⟨by simp, ?_, ?_⟩
  · simp only [decide_eq_true_eq, List.mem_cons, List.mem_singleton]
    constructor
    · intro h0
      omega
    · intro h0
      simp only [List.not_mem_nil, or_false] at h0
      omega
  · intro h1 h31
    simp only [decide_eq_false_iff_not]
    omega

/-- Instances of C15: mode 224 is matched, mode 31 is not. -/
theorem C15_match_condition_witness :
    (OpenLASIR_decodeLaserTagFire
        (OpenLASIR_encodeGeneralPacket 7 42 224 4).1
        (OpenLASIR_encodeGeneralPacket 7 42 224 4).2).1 = true ∧
    (OpenLASIR_decodeLaserTagFire
        (OpenLASIR_encodeGeneralPacket 7 42 31 4).1
        (OpenLASIR_encodeGeneralPacket 7 42 31 4).2).1 = false :=
  ⟨(C15_match_condition 7 42 224 4 (by decide) (by decide) (by decide) (by decide)).1.2
      (by decide),
   (C15_match_condition 7 42 31 4 (by decide) (by decide) (by decide) (by decide)).2.2
      (by decide) (by decide)⟩

/-- C16. Collision characterisation: for two tuples of 8-bit arguments, the
general encoder produces the same (address, command) pair if and only if the
block ids are equal, the device ids are equal, the modes are equal modulo 32
and the data are equal modulo 8.  In particular two in-range packets
(mode <= 31, data <= 7) with the same wire representation are equal. -/
theorem C16_collisions (b1 d1 m1 x1 b2 d2 m2 x2 : Nat) :
    b1 < 256 → d1 < 256 → m1 < 256 → x1 < 256 →
    b2 < 256 → d2 < 256 → m2 < 256 → x2 < 256 →
    (OpenLASIR_encodeGeneralPacket b1 d1 m1 x1 = OpenLASIR_encodeGeneralPacket b2 d2 m2 x2
      ↔ b1 = b2 ∧ d1 = d2 ∧ m1 % 32 = m2 % 32 ∧ x1 % 8 = x2 % 8) ∧
    (m1 ≤ 31 → x1 ≤ 7 → m2 ≤ 31 → x2 ≤ 7 →
      OpenLASIR_encodeGeneralPacket b1 d1 m1 x1 = OpenLASIR_encodeGeneralPacket b2 d2 m2 x2 →
      b1 = b2 ∧ d1 = d2 ∧ m1 = m2 ∧ x1 = x2) := by
  intro _ hd1 _ _ _ hd2 _ _
  have hiff : OpenLASIR_encodeGeneralPacket b1 d1 m1 x1
        = OpenLASIR_encodeGeneralPacket b2 d2 m2 x2
      ↔ b1 = b2 ∧ d1 = d2 ∧ m1 % 32 = m2 % 32 ∧ x1 % 8 = x2 % 8 := by
    constructor
    · intro h
      have hdec := congrArg (fun p : Nat × Nat => OpenLASIR_decodeGeneralPacket p.1 p.2) h
      simp only [decode_encodeGeneralPacket b1 d1 m1 x1 hd1,
        decode_encodeGeneralPacket b2 d2 m2 x2 hd2, OpenLASIR_Packet.mk.injEq] at hdec
      exact hdec
    · rintro ⟨hb, hd, hm, hx⟩
      apply Prod.ext
      · exact hb
      · rw [encodeGeneralPacket_command b1 d1 m1 x1 hd1,
          encodeGeneralPacket_command b2 d2 m2 x2 hd2, hd, hm, hx]
  refine ⟨hiff, ?_⟩
  intro h1 h2 h3 h4 h
  obtain ⟨hb, hd, hm, hx⟩ := hiff.1 h
  exact ⟨hb, hd, by omega, by omega⟩

/-- Instance of C16: modes 1 and 33 with data 2 and 10 collide. -/
theorem C16_collisions_witness :
    OpenLASIR_encodeGeneralPacket 7 42 1 2 = OpenLASIR_encodeGeneralPacket 7 42 33 10 :=
  (C16_collisions 7 42 1 2 7 42 33 10 (by decide) (by decide) (by decide) (by decide)
    (by decide) (by decide) (by decide) (by decide)).1.2 (by decide)

/-- C17. Every decoded data field is a valid color code: for every 8-bit
address and 16-bit command, the RGB lookup of the decoded data returns true
and the color name of the decoded data is a name other than "unknown".  The
mode field is different: when bits 8-12 of the command hold a value of 12 or
more, the name of the decoded mode is "unknown", and such commands exist. -/
theorem C17_decoded_data_is_color (address command r g b : Nat) :
    address < 256 → command < 65536 → r < 256 → g < 256 → b < 256 →
    (∃ r1 g1 b1,
      OpenLASIR_getColorRGB (OpenLASIR_decodeGeneralPacket address command).data r g b
        = some (true, r1, g1, b1)) ∧
    (∃ name,
      OpenLASIR_getColorName (OpenLASIR_decodeGeneralPacket address command).data = some name ∧
      name ≠ "unknown") ∧
    (12 ≤ (command / 256) % 32 →
      OpenLASIR_getModeName (OpenLASIR_decodeGeneralPacket address command).mode
        = some "unknown") ∧
    (∃ c, c < 65536 ∧ 12 ≤ (c / 256) % 32 ∧
      OpenLASIR_getModeName (OpenLASIR_decodeGeneralPacket address c).mode = some "unknown") := by
  intro _ _ _ _ _
  rw [decodeGeneralPacket_eq]
  have hx : (command / 8192) % 8 < 8 := Nat.mod_lt _ (by decide)
  refine ⟨?_, ?_, ?_, ?_⟩
  · show ∃ r1 g1 b1,
      OpenLASIR_getColorRGB ((command / 8192) % 8) r g b = some (true, r1, g1, b1)
    generalize (command / 8192) % 8 = v at hx
    interval_cases v <;> exact ⟨_, _, _, rfl⟩
  · show ∃ name,
      OpenLASIR_getColorName ((command / 8192) % 8) = some name ∧ name ≠ "unknown"
    generalize (command / 8192) % 8 = v at hx
    interval_cases v <;>
      simp [OpenLASIR_getColorName, OPENLASIR_NUM_COLORS, OPENLASIR_COLOR_NAMES]
  · intro h12
    exact getModeName_of_ge _ h12
  · refine ⟨0x0C00, by decide, by decide, ?_⟩
    rw [decodeGeneralPacket_eq]
    exact getModeName_of_ge _ (show 12 ≤ 0x0C00 / 256 % 32 by decide)

/-- Instance of C17 at address 7 and command 0xFFFF: data 7 is white, mode 31
has no name. -/
theorem C17_decoded_data_is_color_witness :
    (∃ r1 g1 b1,
      OpenLASIR_getColorRGB (OpenLASIR_decodeGeneralPacket 7 0xFFFF).data 0 0 0
        = some (true, r1, g1, b1)) ∧
    OpenLASIR_getModeName (OpenLASIR_decodeGeneralPacket 7 0xFFFF).mode = some "unknown" :=
  let h := C17_decoded_data_is_color 7 0xFFFF 0 0 0 (by decide) (by decide) (by decide)
    (by decide) (by decide)
  ⟨h.1, h.2.2.1 (by decide)⟩

/-- C18. Table indexing is always in bounds: the mode name table has exactly
12 entries, the color name table and the color RGB table have exactly 8, these
are the two guard constants, and so for every 8-bit argument an index that
passes the guard of a lookup function is a valid index of its table and no
lookup function reads past the end of its table. -/
theorem C18_table_bounds (mode color r g b : Nat) :
    mode < 256 → color < 256 → r < 256 → g < 256 → b < 256 →
    (OPENLASIR_MODE_NAMES.length = 12 ∧ OPENLASIR_NUM_DEFINED_MODES = 12) ∧
    (OPENLASIR_COLOR_NAMES.length = 8 ∧ OPENLASIR_COLOR_RGB.length = 8 ∧
      OPENLASIR_NUM_COLORS = 8) ∧
    (mode < OPENLASIR_NUM_DEFINED_MODES → mode < OPENLASIR_MODE_NAMES.length) ∧
    (color < OPENLASIR_NUM_COLORS → color < OPENLASIR_COLOR_NAMES.length) ∧
    (¬ color ≥ OPENLASIR_NUM_COLORS → color < OPENLASIR_COLOR_RGB.length) ∧
    OpenLASIR_getModeName mode ≠ none ∧
    OpenLASIR_getColorName color ≠ none ∧
    OpenLASIR_getColorRGB color r g b ≠ none := by
  intro _ _ _ _ _
  refine ⟨⟨rfl, rfl⟩, ⟨rfl, rfl, rfl⟩, fun h => h, fun h => h, fun h => Nat.lt_of_not_le h,
    ?_, ?_, ?_⟩
  · by_cases h : mode < 12
    · interval_cases mode <;> decide
    · rw [getModeName_of_ge mode (Nat.le_of_not_lt h)]
      exact Option.some_ne_none _
  · by_cases h : color < 8
    · interval_cases color <;> decide
    · rw [getColorName_of_ge color (Nat.le_of_not_lt h)]
      exact Option.some_ne_none _
  · by_cases h : color < 8
    · interval_cases color <;> exact Option.some_ne_none _
    · rw [getColorRGB_of_ge color r g b (Nat.le_of_not_lt h)]
      exact Option.some_ne_none _

/-- Instance of C18 at the last index of each table: mode 11 and color 7. -/
theorem C18_table_bounds_witness :
    (11 < OPENLASIR_MODE_NAMES.length ∧ 7 < OPENLASIR_COLOR_NAMES.length ∧
      7 < OPENLASIR_COLOR_RGB.length) ∧
    OpenLASIR_getModeName 11 ≠ none ∧
    OpenLASIR_getColorName 7 ≠ none ∧
    OpenLASIR_getColorRGB 7 0 0 0 ≠ none :=
  let h := C18_table_bounds 11 7 0 0 0 (by decide) (by decide) (by decide) (by decide)
    (by decide)
  ⟨⟨h.2.2.1 (by decide), h.2.2.2.1 (by decide), h.2.2.2.2.1 (by decide)⟩, h.2.2.2.2.2⟩

/-! ## Disjoint bits of the command -/

/-- A value shifted left by `i` shares no bit with a value below `2 ^ i`. -/
theorem shiftLeft_and_eq_zero_of_lt (a b i : Nat) (hb : b < 2 ^ i) : (a <<< i) &&& b = 0 := by
  apply Nat.eq_of_testBit_eq
  intro j
  rw [Nat.testBit_and, Nat.testBit_shiftLeft, Nat.zero_testBit]
  by_cases hj : i ≤ j
  · have hle : 2 ^ i ≤ 2 ^ j := Nat.pow_le_pow_right (by decide) hj
    have hf : b.testBit j = false := Nat.testBit_lt_two_pow (Nat.lt_of_lt_of_le hb hle)
    simp [hf]
  · simp [hj]

/-- C19. No overflow and no overlapping bits in the command computation: for
all 8-bit deviceId, mode and data the three terms `(data & 0x07) << 13`,
`(mode & 0x1F) << 8` and deviceId have pairwise disjoint set bits, their
bitwise OR is their sum deviceId + 256 * (mode mod 32) + 8192 * (data mod 8),
that sum over the naturals is at most 65535, and the command stored by the
encoder is that value, unchanged by the reduction modulo 2^16. -/
theorem C19_no_overflow (blockId deviceId mode data : Nat) :
    blockId < 256 → deviceId < 256 → mode < 256 → data < 256 →
    (((data &&& 0x07) <<< 13) &&& ((mode &&& 0x1F) <<< 8) = 0 ∧
      ((data &&& 0x07) <<< 13) &&& deviceId = 0 ∧
      ((mode &&& 0x1F) <<< 8) &&& deviceId = 0) ∧
    ((((data &&& 0x07) <<< 13) ||| ((mode &&& 0x1F) <<< 8)) ||| deviceId
      = ((data &&& 0x07) <<< 13) + ((mode &&& 0x1F) <<< 8) + deviceId) ∧
    (((data &&& 0x07) <<< 13) + ((mode &&& 0x1F) <<< 8) + deviceId
      = deviceId + 256 * (mode % 32) + 8192 * (data % 8)) ∧
    deviceId + 256 * (mode % 32) + 8192 * (data % 8) ≤ 65535 ∧
    ((data &&& 0x07) % 65536 = data &&& 0x07 ∧ (mode &&& 0x1F) % 65536 = mode &&& 0x1F) ∧
    ((((data &&& 0x07) <<< 13) ||| ((mode &&& 0x1F) <<< 8)) ||| deviceId) % 65536
      = (((data &&& 0x07) <<< 13) ||| ((mode &&& 0x1F) <<< 8)) ||| deviceId ∧
    (OpenLASIR_encodeGeneralPacket blockId deviceId mode data).2
      = (((data &&& 0x07) <<< 13) ||| ((mode &&& 0x1F) <<< 8)) ||| deviceId := by
  intro _ hd _ _
  have hm : mode % 32 < 32 := Nat.mod_lt _ (by decide)
  have hx : data % 8 < 8 := Nat.mod_lt _ (by decide)
  have hor := command_or_eq_add deviceId (mode % 32) (data % 8) hd hm
  have hs13 : (data % 8) <<< 13 = 8192 * (data % 8) := by
    rw [Nat.shiftLeft_eq]
    omega
  have hs8 : (mode % 32) <<< 8 = 256 * (mode % 32) := by
    rw [Nat.shiftLeft_eq]
    omega
  have hc := encodeGeneralPacket_command blockId deviceId mode data hd
  rw [and_0x07_eq_mod, and_0x1F_eq_mod]
  refine ⟨⟨?_, ?_, ?_⟩, ?_, ?_, ?_, ⟨?_, ?_⟩, ?_, ?_⟩
  · apply shiftLeft_and_eq_zero_of_lt
    rw [hs8]
    norm_num
    omega
  · apply shiftLeft_and_eq_zero_of_lt
    norm_num
    omega
  · apply shiftLeft_and_eq_zero_of_lt
    simpa using hd
  · rw [hor, hs13, hs8]
  · rw [hs13, hs8]
    omega
  · omega
  · omega
  · omega
  · rw [hor]
    omega
  · rw [hor, hc]
    omega

/-- Instance of C19 at deviceId 255, mode 255 and data 255, where every field
is full: the command is 65535. -/
theorem C19_no_overflow_witness :
    (OpenLASIR_encodeGeneralPacket 7 255 255 255).2
      = (((255 &&& 0x07) <<< 13) ||| ((255 &&& 0x1F) <<< 8)) ||| 255 ∧
    255 + 256 * (255 % 32) + 8192 * (255 % 8) ≤ 65535 :=
  let h := C19_no_overflow 7 255 255 255 (by decide) (by decide) (by decide) (by decide)
  ⟨h.2.2.2.2.2.2, h.2.2.2.1⟩
